import Mathlib

set_option maxRecDepth 100000

/-!
Verification of the sonicks SOCKS5 client (socks5h variant).

The development below is a shallow embedding of the protocol logic found in
`src/method.rs`, `src/reply.rs`, `src/error.rs` and `src/socks.rs`:

* byte tables for authentication methods and reply codes;
* the error vocabulary;
* the CONNECT request encoder (the closure inside `Socks5hProxy::connect`);
* the method-evaluation step of the handshake orchestrator;
* the reply decoder, modelled as a function over the incoming byte stream
  (a `List Nat` of bytes), where `read_exact n` consumes `n` bytes or fails.

Bytes are modelled as `Nat`; where a claim ranges over "every byte value"
the quantification is over `Fin 256`.  IP-literal parsing is performed by
the Rust standard library (`IpAddr::from_str`), which is external to this
repository, so the request encoder is parametrised by the parse function
and theorems quantify over it.
-/

/-- Embeds `Socks5Method` from `src/method.rs`: the method negotiated at
handshake.  Payload bytes are `Nat` (Rust `u8`). -/
inductive Socks5Method where
  | NoAuthRequired
  | Gssapi
  | UsernamePassword
  | IanaAssigned (code : Nat)
  | Private (code : Nat)
  | NoAcceptable
deriving DecidableEq

/-- Embeds `impl Into<u8> for Socks5Method` from `src/method.rs`. -/
def socks5MethodToByte : Socks5Method → Nat
  | .NoAuthRequired => 0x00
  | .Gssapi => 0x01
  | .UsernamePassword => 0x02
  | .IanaAssigned code => code
  | .Private code => code
  | .NoAcceptable => 0xFF

/-- Embeds `impl From<u8> for Socks5Method` from `src/method.rs`.  The Rust
match has range patterns `0x03...0x7F` and `0x80...0xFE` (inclusive) and a
final `_ => unreachable!()` arm; reaching that arm is modelled as `none`. -/
def byteToSocks5Method (byte : Nat) : Option Socks5Method :=
  if byte = 0x00 then some .NoAuthRequired
  else if byte = 0x01 then some .Gssapi
  else if byte = 0x02 then some .UsernamePassword
  else if 0x03 ≤ byte ∧ byte ≤ 0x7F then some (.IanaAssigned byte)
  else if 0x80 ≤ byte ∧ byte ≤ 0xFE then some (.Private byte)
  else if byte = 0xFF then some .NoAcceptable
  else none

/-- Embeds `Socks5Reply` from `src/reply.rs`: the server's reply code. -/
inductive Socks5Reply where
  | Succeeded
  | GeneralFailure
  | NotAllowedRuleset
  | NetworkUnreachable
  | HostUnreachable
  | ConnectionRefused
  | TtlExpired
  | CommandNotSupported
  | AddressTypeNotSupported
  | Unassigned (code : Nat)
deriving DecidableEq

/-- Embeds `impl Into<u8> for Socks5Reply` from `src/reply.rs`. -/
def socks5ReplyToByte : Socks5Reply → Nat
  | .Succeeded => 0x00
  | .GeneralFailure => 0x01
  | .NotAllowedRuleset => 0x02
  | .NetworkUnreachable => 0x03
  | .HostUnreachable => 0x04
  | .ConnectionRefused => 0x05
  | .TtlExpired => 0x06
  | .CommandNotSupported => 0x07
  | .AddressTypeNotSupported => 0x08
  | .Unassigned code => code

/-- Embeds `impl From<u8> for Socks5Reply` from `src/reply.rs`; the catch-all
arm maps any other byte to `Unassigned`. -/
def byteToSocks5Reply (byte : Nat) : Socks5Reply :=
  if byte = 0x00 then .Succeeded
  else if byte = 0x01 then .GeneralFailure
  else if byte = 0x02 then .NotAllowedRuleset
  else if byte = 0x03 then .NetworkUnreachable
  else if byte = 0x04 then .HostUnreachable
  else if byte = 0x05 then .ConnectionRefused
  else if byte = 0x06 then .TtlExpired
  else if byte = 0x07 then .CommandNotSupported
  else if byte = 0x08 then .AddressTypeNotSupported
  else .Unassigned byte

/-- Embeds the digit choice of Rust's uppercase-hex formatting: digits 0-9
then letters A-F. -/
def hexDigitUpper (n : Nat) : Char :=
  if n < 10 then Char.ofNat (48 + n) else Char.ofNat (55 + n)

/-- Embeds Rust's uppercase-hex format of a `u8` value (no `0x`
prefix, no zero padding); a `u8` needs at most two hex digits. -/
def hexUpper (n : Nat) : String :=
  if n < 16 then String.mk [hexDigitUpper n]
  else String.mk [hexDigitUpper (n / 16), hexDigitUpper (n % 16)]

/-- Embeds `impl fmt::Display for Socks5Reply` from `src/reply.rs`; the
`Unassigned` arm uses the uppercase-hex format of the code. -/
def socks5ReplyDisplay : Socks5Reply → String
  | .Succeeded => "succeeded"
  | .GeneralFailure => "general SOCKS server failure"
  | .NotAllowedRuleset => "connection not allowed by ruleset"
  | .NetworkUnreachable => "network unreachable"
  | .HostUnreachable => "host unreachable"
  | .ConnectionRefused => "connection refused"
  | .TtlExpired => "TTL expired"
  | .CommandNotSupported => "command not supported"
  | .AddressTypeNotSupported => "address type not supported"
  | .Unassigned code => "Unassigned reply " ++ hexUpper code

/-- Embeds `error::reply_error` from `src/error.rs`: the io error's message
is `reply.to_string()`, i.e. the Display rendering of the reply code. -/
def replyErrorMsg (reply : Socks5Reply) : String :=
  socks5ReplyDisplay reply

/-- Embeds the error vocabulary of `src/error.rs` as a closed inductive;
each constructor corresponds to one error-constructor function.  `IoEof`
stands for the io error produced when `read_exact` hits end of stream
(raised by the transport, not by `src/error.rs`). -/
inductive ConnError where
  | UnsupportedVersion (version : Nat)
  | UnsupportedMethod (m : Socks5Method)
  | NoAcceptableMethods
  | InvalidHostLength (length : Nat)
  | UnsupportedScheme (scheme : String)
  | InvalidAddressType (atyp : Nat)
  | InvalidReserved (rsv : Nat)
  | ReplyError (reply : Socks5Reply)
  | IoEof
deriving DecidableEq

/-- Decidable equality for `Except`, used to evaluate the embedded
operations on concrete inputs. -/
instance {ε α : Type} [DecidableEq ε] [DecidableEq α] :
    DecidableEq (Except ε α) := fun x y =>
  match x, y with
  | .ok a, .ok b =>
    if h : a = b then isTrue (by rw [h])
    else isFalse (fun hx => h (by injection hx))
  | .error a, .error b =>
    if h : a = b then isTrue (by rw [h])
    else isFalse (fun hx => h (by injection hx))
  | .ok a, .error b => isFalse (fun hx => Except.noConfusion hx)
  | .error a, .ok b => isFalse (fun hx => Except.noConfusion hx)

/-- Embeds `hyper::client::connect::Destination` as used by
`Socks5hProxy::connect` in `src/socks.rs`: `dst.host()` is a string,
`dst.port()` an optional `u16`, `dst.scheme()` a string. -/
structure Destination where
  host : String
  port : Option Nat
  scheme : String

/-- Embeds `std::net::IpAddr` by its observable content in
`Socks5hProxy::connect`: the `octets()` of the parsed address (4 bytes for
V4, 16 for V6). -/
inductive IpAddr where
  | v4 (octets : List Nat)
  | v6 (octets : List Nat)

/-- Embeds Rust `str::bytes()`: the UTF-8 bytes of a string, as `Nat`s,
obtained by UTF-8-encoding each character in order. -/
def strBytes (s : String) : List Nat :=
  (s.data.flatMap (fun c => String.utf8EncodeChar c)).map (fun b => b.toNat)

/-- Embeds the port-resolution step of `Socks5hProxy::connect`
(`src/socks.rs` lines 129-139): use the explicit port when present,
otherwise 80 for scheme "http", 443 for "https", and fail with
`unsupported_scheme` for any other scheme. -/
def resolvePort (dst : Destination) : Except ConnError Nat :=
  match dst.port with
  | some port => .ok port
  | none =>
    if dst.scheme = "http" then .ok 80
    else if dst.scheme = "https" then .ok 443
    else .error (.UnsupportedScheme dst.scheme)

/-- Embeds the CONNECT-request construction closure of
`Socks5hProxy::connect` (`src/socks.rs` lines 93-147).  The request starts
`[VER=5, CMD=1, RSV=0]`; then the address: `IpAddr::from_str(dst.host())`
is the standard library's parse (external to this repository), so it is
passed in as `parseIp`.  A parsed V4 address contributes `0x01` plus its
octets, a V6 address `0x04` plus its octets; otherwise the host is a domain
name: `0x03`, a length byte (`host.len().try_into::<u8>()`, failing with
`invalid_host_length` on `Ok(0)` or `Err`, i.e. length 0 or above 255), and
the host's bytes.  Finally the resolved port, big-endian
(`port.to_be().to_bytes()` on a `u16` yields exactly the two big-endian
bytes). -/
def connectRequest (parseIp : String → Option IpAddr) (dst : Destination) :
    Except ConnError (List Nat) :=
  let request : List Nat := [5, 0x01, 0]
  let withAddr : Except ConnError (List Nat) :=
    match parseIp dst.host with
    | some (IpAddr.v4 octets) => .ok (request ++ 0x01 :: octets)
    | some (IpAddr.v6 octets) => .ok (request ++ 0x04 :: octets)
    | none =>
      let host := dst.host
      if host.utf8ByteSize = 0 ∨ 255 < host.utf8ByteSize then
        .error (.InvalidHostLength host.utf8ByteSize)
      else
        .ok (request ++ 0x03 :: host.utf8ByteSize :: strBytes host)
  match withAddr with
  | .error e => .error e
  | .ok req =>
    match resolvePort dst with
    | .error e => .error e
    | .ok port => .ok (req ++ [port / 256, port % 256])

/-- Embeds the method-evaluation step of `Socks5hProxy::connect`
(`src/socks.rs` lines 81-91): the match over the (version, method) pair
received from `method_handshake`.  `Ok socket` is modelled as `.ok ()`
(proceed to sending the CONNECT request). -/
def evaluateMethod (version : Nat) (method : Socks5Method) : Except ConnError Unit :=
  if version = 5 then
    match method with
    | .NoAuthRequired => .ok ()
    | .NoAcceptable => .error .NoAcceptableMethods
    | method => .error (.UnsupportedMethod method)
  else .error (.UnsupportedVersion version)

/-- Embeds `tokio::io::read_exact` over a byte-stream modelled as the list
of bytes the server sends: consumes exactly `n` bytes, returning them with
the rest of the stream, or fails (with an io error, modelled `IoEof`) when
fewer are available. -/
def readExact (n : Nat) (s : List Nat) : Except ConnError (List Nat × List Nat) :=
  if s.length < n then .error .IoEof
  else .ok (s.take n, s.drop n)

/-- Embeds the header-validation step of `Socks5hProxy::connect`
(`src/socks.rs` lines 157-174): checks VER, then REP (converted through
`Socks5Reply::from`), then RSV, in that order, and returns the ATYP byte. -/
def checkReplyHeader (ver rep rsv atyp : Nat) : Except ConnError Nat :=
  if ver ≠ 5 then .error (.UnsupportedVersion ver)
  else if byteToSocks5Reply rep ≠ .Succeeded then
    .error (.ReplyError (byteToSocks5Reply rep))
  else if rsv ≠ 0 then .error (.InvalidReserved rsv)
  else .ok atyp

/-- Embeds the bound-address-consumption step of `Socks5hProxy::connect`
(`src/socks.rs` lines 176-214): ATYP 0x01 reads 4 bytes, 0x03 reads a
length byte then that many bytes, 0x04 reads 16 bytes, and any other ATYP
fails with `invalid_address_type`.  Returns the rest of the stream. -/
def readBoundAddress (atyp : Nat) (s : List Nat) : Except ConnError (List Nat) :=
  if atyp = 0x01 then
    match readExact 4 s with
    | .ok (_, rest) => .ok rest
    | .error e => .error e
  else if atyp = 0x03 then
    match readExact 1 s with
    | .ok (len, rest) =>
      match readExact (len.headD 0) rest with
      | .ok (_, rest2) => .ok rest2
      | .error e => .error e
    | .error e => .error e
  else if atyp = 0x04 then
    match readExact 16 s with
    | .ok (_, rest) => .ok rest
    | .error e => .error e
  else .error (.InvalidAddressType atyp)

/-- Embeds the reply-decoding pipeline of `Socks5hProxy::connect`
(`src/socks.rs` lines 151-219): read the fixed 4-byte header
`[VER, REP, RSV, ATYP]`, validate it, consume the bound address according
to ATYP, read the 2 bound-port bytes, and return only the channel — here
the remaining stream; none of the bound address or port appears in the
result. -/
def decodeReply (s : List Nat) : Except ConnError (List Nat) :=
  match readExact 4 s with
  | .error e => .error e
  | .ok (response, s1) =>
    match checkReplyHeader (response.headD 0) ((response.drop 1).headD 0)
        ((response.drop 2).headD 0) ((response.drop 3).headD 0) with
    | .error e => .error e
    | .ok atyp =>
      match readBoundAddress atyp s1 with
      | .error e => .error e
      | .ok s2 =>
        match readExact 2 s2 with
        | .error e => .error e
        | .ok (_, s3) => .ok s3

/-- C7: for every byte value 0x00-0xFF, byte-to-method followed by
method-to-byte gives the byte back; the method obtained from a byte is a
fixed point of the round trip; and the same two round trips hold for the
reply-code table. -/
theorem socks5_tables_roundtrip (b : Fin 256) :
    (byteToSocks5Method b.val).map socks5MethodToByte = some b.val ∧
    (byteToSocks5Method b.val).bind
      (fun m => byteToSocks5Method (socks5MethodToByte m)) = byteToSocks5Method b.val ∧
    socks5ReplyToByte (byteToSocks5Reply b.val) = b.val ∧
    byteToSocks5Reply (socks5ReplyToByte (byteToSocks5Reply b.val)) = byteToSocks5Reply b.val := by
  revert b
  decide

/-- C9: for every byte value 0x00-0xFF the byte-to-method conversion takes a
named arm, never the `unreachable!()` fallthrough (modelled as `none`), and
the byte-to-reply conversion yields a reply code for every byte. -/
theorem socks5_tables_total (b : Fin 256) :
    byteToSocks5Method b.val ≠ none ∧
    ∃ r : Socks5Reply, byteToSocks5Reply b.val = r := by
  refine ⟨?_, ⟨byteToSocks5Reply b.val, rfl⟩⟩
  revert b
  decide

/-- Helper: `resolvePort` only ever fails with `UnsupportedScheme` of the
destination's scheme. -/
theorem resolvePort_error_scheme (dst : Destination) (e : ConnError)
    (h : resolvePort dst = .error e) : e = .UnsupportedScheme dst.scheme := by
  unfold resolvePort at h
  cases hport : dst.port with
  | some p => rw [hport] at h; simp at h
  | none =>
    rw [hport] at h
    by_cases h1 : dst.scheme = "http"
    · rw [if_pos h1] at h; simp at h
    · rw [if_neg h1] at h
      by_cases h2 : dst.scheme = "https"
      · rw [if_pos h2] at h; simp at h
      · rw [if_neg h2] at h
        simpa using h.symm

/-- Helper: when the host is not an IP literal and its byte length is 0 or
above 255, the encoder fails with `InvalidHostLength` before port
resolution is reached. -/
theorem connectRequest_invalid_host_length
    (parseIp : String → Option IpAddr) (dst : Destination)
    (hip : parseIp dst.host = none)
    (hlen : dst.host.utf8ByteSize = 0 ∨ 255 < dst.host.utf8ByteSize) :
    connectRequest parseIp dst =
      .error (.InvalidHostLength dst.host.utf8ByteSize) := by
  simp [connectRequest, hip, if_pos hlen]

/-- Helper: every successfully encoded CONNECT request ends with the two
big-endian bytes of the resolved port. -/
theorem connectRequest_ok_shape (parseIp : String → Option IpAddr)
    (dst : Destination) (r : List Nat)
    (h : connectRequest parseIp dst = .ok r) :
    ∃ req p, resolvePort dst = .ok p ∧ r = req ++ [p / 256, p % 256] := by
  simp only [connectRequest] at h
  split at h
  · exact absurd h (by simp)
  · rename_i req heq
    split at h
    · exact absurd h (by simp)
    · rename_i port hp
      exact ⟨req, port, hp, (by injection h with h; exact h.symm)⟩

/-- C1: the request encoder tries address encodings in order: a host that
parses as a literal IPv4 address is encoded as address-type 0x01 plus its 4
octets, a literal IPv6 address as 0x04 plus its 16 octets, and otherwise the
host is a domain name, encoded as 0x03, a length byte equal to the host's
byte length, and the host's raw bytes; the domain case fails with
`InvalidHostLength` exactly when the byte length is 0 or exceeds 255. -/
theorem connect_request_address_encoding
    (parseIp : String → Option IpAddr) (dst : Destination) :
    (∀ octets, parseIp dst.host = some (.v4 octets) →
      connectRequest parseIp dst =
        (resolvePort dst).map (fun p => [5, 1, 0, 1] ++ octets ++ [p / 256, p % 256])) ∧
    (∀ octets, parseIp dst.host = some (.v6 octets) →
      connectRequest parseIp dst =
        (resolvePort dst).map (fun p => [5, 1, 0, 4] ++ octets ++ [p / 256, p % 256])) ∧
    (parseIp dst.host = none → 1 ≤ dst.host.utf8ByteSize → dst.host.utf8ByteSize ≤ 255 →
      connectRequest parseIp dst =
        (resolvePort dst).map (fun p =>
          [5, 1, 0, 3, dst.host.utf8ByteSize] ++ strBytes dst.host ++ [p / 256, p % 256])) ∧
    (parseIp dst.host = none →
      (connectRequest parseIp dst = .error (.InvalidHostLength dst.host.utf8ByteSize) ↔
        dst.host.utf8ByteSize = 0 ∨ 255 < dst.host.utf8ByteSize)) := by
  refine ⟨?_, ?_, ?_, ?_⟩
  · intro octets hip
    cases hp : resolvePort dst <;> simp [connectRequest, hip, hp, Except.map]
  · intro octets hip
    cases hp : resolvePort dst <;> simp [connectRequest, hip, hp, Except.map]
  · intro hip h1 h255
    have hcond : ¬(dst.host.utf8ByteSize = 0 ∨ 255 < dst.host.utf8ByteSize) := by omega
    cases hp : resolvePort dst <;> simp [connectRequest, hip, hcond, hp, Except.map]
  · intro hip
    by_cases hcond : dst.host.utf8ByteSize = 0 ∨ 255 < dst.host.utf8ByteSize
    · simp [connectRequest, hip, hcond]
    · cases hp : resolvePort dst with
      | error e =>
        have he := resolvePort_error_scheme dst e hp
        subst he
        simp [connectRequest, hip, hcond, hp]
      | ok p =>
        simp [connectRequest, hip, hcond, hp]

/-- Witness for C1: a host parsing as the IPv4 literal 127.0.0.1 at a
concrete destination. -/
theorem connect_request_address_encoding_witness :
    connectRequest (fun _ => some (IpAddr.v4 [127, 0, 0, 1]))
        ⟨"localhost", some 8080, "http"⟩ =
      (resolvePort ⟨"localhost", some 8080, "http"⟩).map
        (fun p => [5, 1, 0, 1] ++ [127, 0, 0, 1] ++ [p / 256, p % 256]) :=
  (connect_request_address_encoding
    (fun _ => some (IpAddr.v4 [127, 0, 0, 1]))
    ⟨"localhost", some 8080, "http"⟩).1 [127, 0, 0, 1] rfl

/-- C2: the encoded request ends with the resolved port in big-endian
order; the resolved port is the destination's explicit port when present,
else 80 for scheme "http" (last bytes `[0x00, 0x50]`), else 443 for
"https" (last bytes `[0x01, 0xBB]`); for any other scheme with no explicit
port, port resolution fails with `UnsupportedScheme`, and so does the whole
encoder whenever address encoding succeeded. -/
theorem connect_request_port_encoding
    (parseIp : String → Option IpAddr) (dst : Destination) :
    (∀ p, dst.port = some p → resolvePort dst = .ok p) ∧
    (dst.port = none → dst.scheme = "http" → resolvePort dst = .ok 80) ∧
    (dst.port = none → dst.scheme = "https" → resolvePort dst = .ok 443) ∧
    (dst.port = none → dst.scheme ≠ "http" → dst.scheme ≠ "https" →
      resolvePort dst = .error (.UnsupportedScheme dst.scheme)) ∧
    (∀ r p, connectRequest parseIp dst = .ok r → resolvePort dst = .ok p →
      ∃ front, r = front ++ [p / 256, p % 256]) ∧
    (∀ r, connectRequest parseIp dst = .ok r → dst.port = none →
      dst.scheme = "http" → ∃ front, r = front ++ [0x00, 0x50]) ∧
    (∀ r, connectRequest parseIp dst = .ok r → dst.port = none →
      dst.scheme = "https" → ∃ front, r = front ++ [0x01, 0xBB]) ∧
    ((parseIp dst.host = none →
        1 ≤ dst.host.utf8ByteSize ∧ dst.host.utf8ByteSize ≤ 255) →
      dst.port = none → dst.scheme ≠ "http" → dst.scheme ≠ "https" →
      connectRequest parseIp dst = .error (.UnsupportedScheme dst.scheme)) := by
  refine ⟨?_, ?_, ?_, ?_, ?_, ?_, ?_, ?_⟩
  · intro p hp
    simp [resolvePort, hp]
  · intro hn hs
    simp [resolvePort, hn, hs]
  · intro hn hs
    simp [resolvePort, hn, hs]
  · intro hn h1 h2
    simp [resolvePort, hn, h1, h2]
  · intro r p hok hp
    obtain ⟨req, p', hp', hr⟩ := connectRequest_ok_shape parseIp dst r hok
    rw [hp] at hp'
    injection hp' with hpp
    exact ⟨req, by rw [hr, hpp]⟩
  · intro r hok hn hs
    obtain ⟨req, p', hp', hr⟩ := connectRequest_ok_shape parseIp dst r hok
    have h80 : resolvePort dst = .ok 80 := by simp [resolvePort, hn, hs]
    rw [h80] at hp'
    injection hp' with hpp
    subst hpp
    exact ⟨req, by simpa using hr⟩
  · intro r hok hn hs
    obtain ⟨req, p', hp', hr⟩ := connectRequest_ok_shape parseIp dst r hok
    have h443 : resolvePort dst = .ok 443 := by simp [resolvePort, hn, hs]
    rw [h443] at hp'
    injection hp' with hpp
    subst hpp
    exact ⟨req, by simpa using hr⟩
  · intro haddr hn h1 h2
    have hres : resolvePort dst = .error (.UnsupportedScheme dst.scheme) := by
      simp [resolvePort, hn, h1, h2]
    cases hip : parseIp dst.host with
    | some ip =>
      cases ip with
      | v4 octets => simp [connectRequest, hip, hres]
      | v6 octets => simp [connectRequest, hip, hres]
    | none =>
      have hb := haddr hip
      have hcond : ¬(dst.host.utf8ByteSize = 0 ∨ 255 < dst.host.utf8ByteSize) := by
        omega
      simp [connectRequest, hip, hcond, hres]

/-- Witness for C2: a destination with no explicit port and scheme "ftp"
fails with `UnsupportedScheme "ftp"`. -/
theorem connect_request_port_encoding_witness :
    connectRequest (fun _ => none) ⟨"example.com", none, "ftp"⟩ =
      .error (.UnsupportedScheme "ftp") :=
  (connect_request_port_encoding (fun _ => none)
    ⟨"example.com", none, "ftp"⟩).2.2.2.2.2.2.2
    (fun _ => by decide) rfl (by decide) (by decide)

/-- C10: address encoding runs before port resolution, so a destination
whose host is not an IP literal and has byte length 0 or above 255, with no
explicit port and a scheme other than "http" or "https", fails with
`InvalidHostLength`, not `UnsupportedScheme`. -/
theorem invalid_host_length_precedes_scheme
    (parseIp : String → Option IpAddr) (dst : Destination)
    (hip : parseIp dst.host = none)
    (hlen : dst.host.utf8ByteSize = 0 ∨ 255 < dst.host.utf8ByteSize)
    (hport : dst.port = none)
    (h1 : dst.scheme ≠ "http") (h2 : dst.scheme ≠ "https") :
    connectRequest parseIp dst = .error (.InvalidHostLength dst.host.utf8ByteSize) :=
  connectRequest_invalid_host_length parseIp dst hip hlen

/-- Witness for C10: the empty host with scheme "gopher" and no port fails
with `InvalidHostLength 0`. -/
theorem invalid_host_length_precedes_scheme_witness :
    connectRequest (fun _ => none) ⟨"", none, "gopher"⟩ =
      .error (.InvalidHostLength 0) :=
  invalid_host_length_precedes_scheme (fun _ => none) ⟨"", none, "gopher"⟩
    rfl (by decide) rfl (by decide) (by decide)

/-- C3: after method negotiation, version 5 with `NoAuthRequired` proceeds
(to sending the CONNECT request), version 5 with `NoAcceptable` fails with
`NoAcceptableMethods`, version 5 with any other method fails with
`UnsupportedMethod` carrying that method, and any version other than 5
fails with `UnsupportedVersion` carrying that version, regardless of the
method. -/
theorem method_evaluation_outcomes (version : Nat) (method : Socks5Method) :
    (version = 5 → method = .NoAuthRequired →
      evaluateMethod version method = .ok ()) ∧
    (version = 5 → method = .NoAcceptable →
      evaluateMethod version method = .error .NoAcceptableMethods) ∧
    (version = 5 → method ≠ .NoAuthRequired → method ≠ .NoAcceptable →
      evaluateMethod version method = .error (.UnsupportedMethod method)) ∧
    (version ≠ 5 →
      evaluateMethod version method = .error (.UnsupportedVersion version)) := by
  refine ⟨?_, ?_, ?_, ?_⟩
  · rintro rfl rfl; rfl
  · rintro rfl rfl; rfl
  · rintro rfl h1 h2
    cases method <;> first | rfl | simp_all
  · intro h
    simp [evaluateMethod, h]

/-- Witness for C3: end-to-end scenario B, method response `[5, 0xFF]`
fails with `NoAcceptableMethods`. -/
theorem method_evaluation_outcomes_witness :
    evaluateMethod 5 .NoAcceptable = .error .NoAcceptableMethods :=
  (method_evaluation_outcomes 5 .NoAcceptable).2.1 rfl rfl

/-- Helper: the reply-code table yields `Succeeded` exactly on byte 0. -/
theorem byteToSocks5Reply_succeeded_iff (b : Nat) :
    byteToSocks5Reply b = .Succeeded ↔ b = 0 := by
  unfold byteToSocks5Reply
  split_ifs <;> simp_all

/-- C4: the reply-header fields are validated in the order VER, REP, RSV:
a version other than 5 fails with `UnsupportedVersion`, else a non-zero
reply code fails with `ReplyError` of that code, else a non-zero reserved
byte fails with `InvalidReserved`; in particular VER=5 with both REP and
RSV non-zero fails with `ReplyError`, not `InvalidReserved`. -/
theorem reply_header_validation_order (ver rep rsv atyp : Nat) :
    (ver ≠ 5 →
      checkReplyHeader ver rep rsv atyp = .error (.UnsupportedVersion ver)) ∧
    (ver = 5 → rep ≠ 0 →
      checkReplyHeader ver rep rsv atyp =
        .error (.ReplyError (byteToSocks5Reply rep))) ∧
    (ver = 5 → rep = 0 → rsv ≠ 0 →
      checkReplyHeader ver rep rsv atyp = .error (.InvalidReserved rsv)) ∧
    (ver = 5 → rep = 0 → rsv = 0 →
      checkReplyHeader ver rep rsv atyp = .ok atyp) ∧
    (ver = 5 → rep ≠ 0 → rsv ≠ 0 →
      checkReplyHeader ver rep rsv atyp ≠ .error (.InvalidReserved rsv)) := by
  refine ⟨?_, ?_, ?_, ?_, ?_⟩
  · intro h
    simp [checkReplyHeader, h]
  · rintro rfl hrep
    have hne : byteToSocks5Reply rep ≠ .Succeeded := fun hs =>
      hrep ((byteToSocks5Reply_succeeded_iff rep).1 hs)
    simp [checkReplyHeader, hne]
  · rintro rfl rfl hrsv
    simp [checkReplyHeader, byteToSocks5Reply, hrsv]
  · rintro rfl rfl rfl
    rfl
  · rintro rfl hrep hrsv
    have hne : byteToSocks5Reply rep ≠ .Succeeded := fun hs =>
      hrep ((byteToSocks5Reply_succeeded_iff rep).1 hs)
    simp [checkReplyHeader, hne]

/-- Witness for C4: header `[5, 1, 1, 0]` (VER ok, REP and RSV both bad)
fails with `ReplyError`, exercising the validation order. -/
theorem reply_header_validation_order_witness :
    checkReplyHeader 5 1 1 0 = .error (.ReplyError (byteToSocks5Reply 1)) :=
  (reply_header_validation_order 5 1 1 0).2.1 rfl (by decide)

/-- Helper: reading exactly the length of the first block of an appended
stream returns that block and the remainder. -/
theorem readExact_append (n : Nat) (xs ys : List Nat) (h : xs.length = n) :
    readExact n (xs ++ ys) = .ok (xs, ys) := by
  have hlen : ¬ (xs ++ ys).length < n := by
    simp only [List.length_append]
    omega
  unfold readExact
  rw [if_neg hlen, List.take_left' h, List.drop_left' h]

/-- C5: after a valid reply header the decoder consumes the bound address
according to ATYP — exactly 4 further bytes for 0x01, exactly 16 for 0x04,
one length byte then that many bytes for 0x03, and `InvalidAddressType`
for every other ATYP — then reads exactly 2 bound-port bytes, and on
success returns only the channel (the untouched remainder of the stream),
surfacing none of the bound address or port bytes. -/
theorem reply_bound_address_consumption :
    (∀ addr port rest : List Nat, addr.length = 4 → port.length = 2 →
      decodeReply (5 :: 0 :: 0 :: 1 :: (addr ++ (port ++ rest))) = .ok rest) ∧
    (∀ addr port rest : List Nat, addr.length = 16 → port.length = 2 →
      decodeReply (5 :: 0 :: 0 :: 4 :: (addr ++ (port ++ rest))) = .ok rest) ∧
    (∀ (len : Nat) (addr port rest : List Nat), addr.length = len →
      port.length = 2 →
      decodeReply (5 :: 0 :: 0 :: 3 :: len :: (addr ++ (port ++ rest))) = .ok rest) ∧
    (∀ (atyp : Nat) (rest : List Nat), atyp ≠ 1 → atyp ≠ 3 → atyp ≠ 4 →
      decodeReply (5 :: 0 :: 0 :: atyp :: rest) =
        .error (.InvalidAddressType atyp)) := by
  refine ⟨?_, ?_, ?_, ?_⟩
  · intro addr port rest ha hp
    have hh := readExact_append 4 [5, 0, 0, 1] (addr ++ (port ++ rest)) rfl
    simp only [List.cons_append, List.nil_append] at hh
    have haddr := readExact_append 4 addr (port ++ rest) ha
    have hport := readExact_append 2 port rest hp
    simp [decodeReply, hh, haddr, hport, checkReplyHeader, byteToSocks5Reply,
      readBoundAddress]
  · intro addr port rest ha hp
    have hh := readExact_append 4 [5, 0, 0, 4] (addr ++ (port ++ rest)) rfl
    simp only [List.cons_append, List.nil_append] at hh
    have haddr := readExact_append 16 addr (port ++ rest) ha
    have hport := readExact_append 2 port rest hp
    simp [decodeReply, hh, haddr, hport, checkReplyHeader, byteToSocks5Reply,
      readBoundAddress]
  · intro len addr port rest ha hp
    have hh := readExact_append 4 [5, 0, 0, 3] (len :: (addr ++ (port ++ rest))) rfl
    simp only [List.cons_append, List.nil_append] at hh
    have hlenb := readExact_append 1 [len] (addr ++ (port ++ rest)) rfl
    simp only [List.cons_append, List.nil_append] at hlenb
    have haddr := readExact_append len addr (port ++ rest) ha
    have hport := readExact_append 2 port rest hp
    simp [decodeReply, hh, hlenb, haddr, hport, checkReplyHeader,
      byteToSocks5Reply, readBoundAddress]
  · intro atyp rest h1 h3 h4
    have hh := readExact_append 4 [5, 0, 0, atyp] rest rfl
    simp only [List.cons_append, List.nil_append] at hh
    simp [decodeReply, hh, checkReplyHeader, byteToSocks5Reply,
      readBoundAddress, h1, h3, h4]

/-- Witness for C5: a concrete reply with ATYP 0x01, a 4-byte bound
address and 2 port bytes decodes successfully with nothing left over. -/
theorem reply_bound_address_consumption_witness :
    decodeReply [5, 0, 0, 1, 10, 0, 0, 1, 0, 80] = .ok [] := by
  have h := reply_bound_address_consumption.1 [10, 0, 0, 1] [0, 80] [] rfl rfl
  simpa using h

/-- Counterexample for C6: a reply with ATYP 0x03 whose domain-name length
byte is 0 — outside [1, 255] — still decodes successfully (the decoder
reads zero domain bytes and the two port bytes), so an exchange with an
out-of-range length byte does not always fail. -/
theorem domain_length_byte_counterexample :
    decodeReply [5, 0, 0, 3, 0, 9, 9] = .ok [] ∧ ¬ (1 : Nat) ≤ 0 := by
  exact ⟨rfl, by decide⟩

/-- C6 (amended): in the encoded CONNECT request the domain-name length
byte (the request's fifth byte) is the host's byte length and lies in
[1, 255], and a host byte length of 0 or above 255 makes the encoder fail
with `InvalidHostLength`; the reply decoder, however, accepts any length
byte for ATYP 0x03, including 0, consuming exactly that many domain
bytes. -/
theorem domain_length_byte_invariant :
    (∀ (parseIp : String → Option IpAddr) (dst : Destination) (r : List Nat),
      parseIp dst.host = none → connectRequest parseIp dst = .ok r →
      1 ≤ dst.host.utf8ByteSize ∧ dst.host.utf8ByteSize ≤ 255 ∧
        r.get? 4 = some dst.host.utf8ByteSize) ∧
    (∀ (parseIp : String → Option IpAddr) (dst : Destination),
      parseIp dst.host = none →
      (dst.host.utf8ByteSize = 0 ∨ 255 < dst.host.utf8ByteSize) →
      connectRequest parseIp dst =
        .error (.InvalidHostLength dst.host.utf8ByteSize)) ∧
    decodeReply [5, 0, 0, 3, 0, 0, 0] = .ok [] := by
  refine ⟨?_, ?_, rfl⟩
  · intro parseIp dst r hip hok
    by_cases hcond : dst.host.utf8ByteSize = 0 ∨ 255 < dst.host.utf8ByteSize
    · have := connectRequest_invalid_host_length parseIp dst hip hcond
      rw [this] at hok
      exact absurd hok (by simp)
    · refine ⟨by omega, by omega, ?_⟩
      simp only [connectRequest] at hok
      rw [hip, if_neg hcond] at hok
      cases hres : resolvePort dst with
      | error e => rw [hres] at hok; exact absurd hok (by simp)
      | ok p =>
        rw [hres] at hok
        injection hok with hr
        rw [← hr]
        rfl
  · intro parseIp dst hip hcond
    exact connectRequest_invalid_host_length parseIp dst hip hcond

/-- Counterexample for C8: for code 0xFF the ReplyError message is
"Unassigned reply FF" — Rust's `format!("Unassigned reply {:X}", code)`
emits no "0x" prefix — not "Unassigned reply 0xFF" as the claim states. -/
theorem unassigned_reply_message_counterexample :
    replyErrorMsg (byteToSocks5Reply 0xFF) = "Unassigned reply FF" ∧
    "Unassigned reply FF" ≠ "Unassigned reply 0xFF" := by
  exact ⟨rfl, by decide⟩

/-- C8 (amended): when the reply code is not Succeeded, the ReplyError's
message is the human-readable description of that reply code, and for
every code in 0x09-0xFF that description is "Unassigned reply " followed
by the code's uppercase hex digits, with no "0x" prefix and no zero
padding. -/
theorem unassigned_reply_message (code : Nat) :
    (∀ reply : Socks5Reply, replyErrorMsg reply = socks5ReplyDisplay reply) ∧
    (9 ≤ code → code ≤ 255 →
      replyErrorMsg (byteToSocks5Reply code) =
        "Unassigned reply " ++ hexUpper code) := by
  refine ⟨fun reply => rfl, ?_⟩
  intro h9 h255
  have hu : byteToSocks5Reply code = .Unassigned code := by
    unfold byteToSocks5Reply
    split_ifs <;> first | rfl | omega
  rw [hu]
  rfl

/-- Witness for C8 (amended): code 0xFF yields the message
"Unassigned reply FF". -/
theorem unassigned_reply_message_witness :
    replyErrorMsg (byteToSocks5Reply 255) = "Unassigned reply " ++ hexUpper 255 :=
  (unassigned_reply_message 255).2 (by decide) (by decide)

/-- Witness for C6 (amended): host "abc" (length 3) encodes with length
byte 3 at position 4 of the request. -/
theorem domain_length_byte_invariant_witness :
    1 ≤ ("abc" : String).utf8ByteSize ∧ ("abc" : String).utf8ByteSize ≤ 255 ∧
    [5, 1, 0, 3, 3, 97, 98, 99, 0, 80].get? 4 =
      some ("abc" : String).utf8ByteSize :=
  domain_length_byte_invariant.1 (fun _ => none) ⟨"abc", some 80, "http"⟩
    [5, 1, 0, 3, 3, 97, 98, 99, 0, 80] rfl (by decide)
